import Mathlib

/-!
Verification development for the white-balance colorimetry core of the
librawspeed tools.  The C++ sources are shallowly embedded over `ℚ`
(the doubles of the source become exact rationals; the single square
root, in `calculateDuv`, is taken in `ℝ`).  Each definition mirrors one
function of the source tree:

* `ColorTemp.*`        — `src/tools/raw_wb_tool/color_temperature.cpp`
* `wb.color.*`         — `src/tools/wb_color_space.h`
* `wb.temperature.*`   — `src/tools/wb_temperature.h`
* `ComputeWB.*`        — `src/tools/compute_white_balance.cpp` (file-static helpers)
* `wb.*` (gains)       — `src/tools/wb_gains.h`
* `wb.algorithms.*`    — `src/tools/wb_algorithms.h`
-/

namespace ColorTemp

/-- CIE 1931 xy chromaticity pair (`ChromaticityXY` of color_temperature.h). -/
structure ChromaticityXY where
  x : ℚ
  y : ℚ
deriving DecidableEq, Repr

/-- Constant `EPSILON = 1e-6` of color_temperature.h. -/
def EPSILON : ℚ := 1e-6

/-- Piecewise x-coordinate cubic, low range (1667 ≤ T < 4000), as written in
`kelvinToXY` of color_temperature.cpp. -/
def planckLowX (T : ℚ) : ℚ :=
  -0.2661239 * (1e9 / (T * T * T)) - 0.2343589 * (1e6 / (T * T)) + 0.8776956 * (1e3 / T) + 0.179910

/-- Piecewise x-coordinate cubic, high range (T ≥ 4000), from `kelvinToXY`. -/
def planckHighX (T : ℚ) : ℚ :=
  -3.0258469 * (1e9 / (T * T * T)) + 2.1070379 * (1e6 / (T * T)) + 0.2226347 * (1e3 / T) + 0.240390

/-- y cubic in x for 1667 ≤ T < 2222, from `kelvinToXY`. -/
def planckY1 (x : ℚ) : ℚ :=
  -1.1063814 * (x * x * x) - 1.34811020 * (x * x) + 2.18555832 * x - 0.20219683

/-- y cubic in x for 2222 ≤ T < 4000, from `kelvinToXY`. -/
def planckY2 (x : ℚ) : ℚ :=
  -0.9549476 * (x * x * x) - 1.37418593 * (x * x) + 2.09137015 * x - 0.16748867

/-- y cubic in x for T ≥ 4000, from `kelvinToXY`. -/
def planckY3 (x : ℚ) : ℚ :=
  3.0817580 * (x * x * x) - 5.87338670 * (x * x) + 3.75112997 * x - 0.37001483

/-- `ColorTemp::kelvinToXY` of color_temperature.cpp: clamp kelvin to
[1000, 25000], then the CIE piecewise formulas (with the source's extra
endpoint branches for T < 1667). -/
def kelvinToXY (kelvin : ℚ) : ChromaticityXY :=
  let T := max 1000 (min 25000 kelvin)
  let x :=
    if 1667 ≤ T ∧ T < 4000 then planckLowX T
    else if 4000 ≤ T ∧ T ≤ 25000 then planckHighX T
    else if T < 1667 then 0.5268
    else 0.2526
  let y :=
    if 1667 ≤ T ∧ T < 2222 then planckY1 x
    else if 2222 ≤ T ∧ T < 4000 then planckY2 x
    else if 4000 ≤ T then planckY3 x
    else 0.4
  ⟨x, y⟩

/-- `ColorTemp::xyToKelvin` of color_temperature.cpp: McCamy's inverse,
clamped to [1000, 25000]; the source has no guard on the denominator, so
this model is faithful whenever `xy.y ≠ 0.1858`. -/
def xyToKelvin (xy : ChromaticityXY) : ℚ :=
  let n := (xy.x - 0.3320) / (0.1858 - xy.y)
  let cct := 449.0 * n * n * n + 3525.0 * n * n + 6823.3 * n + 5520.33
  max 1000 (min 25000 cct)

/-- `ColorTemp::xyToUV` of color_temperature.cpp: CIE 1960 (u, v). -/
def xyToUV (xy : ChromaticityXY) : ℚ × ℚ :=
  let denom := -2 * xy.x + 12 * xy.y + 3
  if |denom| < EPSILON then (0, 0)
  else (4 * xy.x / denom, 6 * xy.y / denom)

/-- The (u, v) of the test point inside `calculateDuv`. -/
def uvActual (xy : ChromaticityXY) : ℚ × ℚ := xyToUV xy

/-- The (u, v) of the blackbody locus point `kelvinToXY (xyToKelvin xy)`
inside `calculateDuv`. -/
def uvLocus (xy : ChromaticityXY) : ℚ × ℚ := xyToUV (kelvinToXY (xyToKelvin xy))

/-- Squared Euclidean distance between the two (u, v) points of
`calculateDuv` (the quantity under the source's `std::sqrt`). -/
def duvDistSq (xy : ChromaticityXY) : ℚ :=
  ((uvActual xy).1 - (uvLocus xy).1) * ((uvActual xy).1 - (uvLocus xy).1) +
    ((uvActual xy).2 - (uvLocus xy).2) * ((uvActual xy).2 - (uvLocus xy).2)

/-- `ColorTemp::calculateDuv` of color_temperature.cpp: Euclidean distance in
CIE 1960 (u, v) between the point and the locus point at its McCamy CCT,
negated when the test point's v is below the locus point's v. -/
noncomputable def calculateDuv (xy : ChromaticityXY) : ℝ :=
  let duv := Real.sqrt (duvDistSq xy)
  if (uvActual xy).2 < (uvLocus xy).2 then -duv else duv

/-- `ColorTemp::getStandardIlluminant` of color_temperature.cpp. -/
def getStandardIlluminant (illuminant : String) : ChromaticityXY :=
  if illuminant = "A" then ⟨0.44757, 0.40745⟩
  else if illuminant = "D50" then ⟨0.34567, 0.35851⟩
  else if illuminant = "D55" then ⟨0.33242, 0.34743⟩
  else if illuminant = "D65" then ⟨0.31271, 0.32902⟩
  else if illuminant = "D75" then ⟨0.29902, 0.31485⟩
  else if illuminant = "E" then ⟨1/3, 1/3⟩
  else ⟨0.31271, 0.32902⟩

/-- `ColorTemp::tintToDuv` of color_temperature.cpp. -/
def tintToDuv (tint : ℚ) : ℚ := tint / 3000

/-- `ColorTemp::duvToTint` of color_temperature.cpp. -/
def duvToTint (duv : ℚ) : ℚ := duv * 3000

/-- `ColorTemp::isValidWhitePoint` of color_temperature.cpp.  The source
tests `std::abs(calculateDuv(xy)) > 0.1`; since `|calculateDuv xy|` is the
square root of `duvDistSq xy`, that test is expressed here as
`duvDistSq xy > 0.1 * 0.1` (the lemma `isValidWhitePoint_duv_test` below
certifies the two tests agree). -/
def isValidWhitePoint (xy : ChromaticityXY) : Bool :=
  if xy.x < 0.2 ∨ xy.x > 0.5 then false
  else if xy.y < 0.2 ∨ xy.y > 0.5 then false
  else if duvDistSq xy > 0.1 * 0.1 then false
  else true

/-- Camera white-balance multipliers `cam_mul[4]` in order (R, G1, B, G2). -/
structure CamMul where
  r : ℚ
  g1 : ℚ
  b : ℚ
  g2 : ℚ
deriving DecidableEq, Repr

/-- Camera-to-XYZ matrix `cam_xyz[4][3]`: four rows of (X, Y, Z)
coefficients; the estimator only reads rows 0..2. -/
structure CamXyz where
  row0 : ℚ × ℚ × ℚ
  row1 : ℚ × ℚ × ℚ
  row2 : ℚ × ℚ × ℚ
  row3 : ℚ × ℚ × ℚ
deriving DecidableEq, Repr

/-- `ColorTemp::estimateWhitePointXYFromCamMulAndMatrix` of
color_temperature.cpp. -/
def estimateWhitePointXYFromCamMulAndMatrix (cam_mul : CamMul) (cam_xyz : CamXyz) :
    ChromaticityXY :=
  let g1 := if cam_mul.g1 > 0 then cam_mul.g1 else 1
  let g2 := if cam_mul.g2 > 0 then cam_mul.g2 else g1
  let g_avg := (g1 + g2) * 0.5
  let c0 := if cam_mul.r ≤ 0 then 1 else cam_mul.r
  let c1 := if g_avg ≤ 0 then 1 else g_avg
  let c2 := if cam_mul.b ≤ 0 then 1 else cam_mul.b
  let green_norm := if c1 ≤ 0 then 1 else c1
  let c0 := c0 / green_norm
  let c1 := c1 / green_norm
  let c2 := c2 / green_norm
  let s0 := 1 / c0
  let s1 := 1 / c1
  let s2 := 1 / c2
  let X := cam_xyz.row0.1 * s0 + cam_xyz.row1.1 * s1 + cam_xyz.row2.1 * s2
  let Y := cam_xyz.row0.2.1 * s0 + cam_xyz.row1.2.1 * s1 + cam_xyz.row2.2.1 * s2
  let Z := cam_xyz.row0.2.2 * s0 + cam_xyz.row1.2.2 * s1 + cam_xyz.row2.2.2 * s2
  let X := max X EPSILON
  let Y := max Y EPSILON
  let Z := max Z EPSILON
  let p := if Y > EPSILON then (X / Y, (1 : ℚ), Z / Y) else (X, Y, Z)
  let sum := p.1 + p.2.1 + p.2.2
  if sum ≤ EPSILON then getStandardIlluminant "D65"
  else
    let xy : ChromaticityXY := ⟨p.1 / sum, p.2.1 / sum⟩
    if ¬ isValidWhitePoint xy then
      let cct := max 2000 (min 12000 (xyToKelvin xy))
      kelvinToXY cct
    else xy

end ColorTemp

namespace wb.color

/-- Template `wb::color::clamp` of wb_color_space.h:
`std::max(min_val, std::min(value, max_val))`. -/
def clamp (value min_val max_val : ℚ) : ℚ := max min_val (min value max_val)

/-- `wb::color::linearSrgbToXyz` of wb_color_space.h. -/
def linearSrgbToXyz (r g b : ℚ) : ℚ × ℚ × ℚ :=
  (0.4124564 * r + 0.3575761 * g + 0.1804375 * b,
   0.2126729 * r + 0.7151522 * g + 0.0721750 * b,
   0.0193339 * r + 0.1191920 * g + 0.9503041 * b)

/-- `wb::color::xyzToXy` of wb_color_space.h. -/
def xyzToXy (X Y Z : ℚ) : ℚ × ℚ :=
  let sum := X + Y + Z
  if sum ≤ 1e-12 then (0.3127, 0.3290) else (X / sum, Y / sum)

/-- `wb::color::xyToXyz` of wb_color_space.h (Y is set to 1). -/
def xyToXyz (x y : ℚ) : ℚ × ℚ × ℚ :=
  if y ≤ 1e-12 then (0, 0, 0)
  else (x * (1 / y), 1, (1 - x - y) * (1 / y))

/-- `wb::color::xyzToUvPrime` of wb_color_space.h (CIE 1976 u'v'). -/
def xyzToUvPrime (X Y Z : ℚ) : ℚ × ℚ :=
  let denom := X + 15 * Y + 3 * Z
  if denom ≤ 1e-12 then (0, 0) else (4 * X / denom, 9 * Y / denom)

end wb.color

namespace wb.temperature

/-- `wb::temperature::cctFromXy_McCamy` of wb_temperature.h: McCamy's
inverse with a 1e-12 guard on the denominator (fallback 6500 K) and a
clamp to [1000, 40000]. -/
def cctFromXy_McCamy (x y : ℚ) : ℚ :=
  if |0.1858 - y| < 1e-12 then 6500
  else
    let n := (x - 0.3320) / (0.1858 - y)
    let cct := 449.0 * n * n * n + 3525.0 * n * n + 6823.3 * n + 5520.33
    color.clamp cct 1000 40000

/-- `wb::temperature::xyFromCct_DaylightApprox` of wb_temperature.h: clamp
to [1667, 25000], two x regimes split at 4000 (low-range second
coefficient is 0.2343580e6 here), and a single y cubic. -/
def xyFromCct_DaylightApprox (cct : ℚ) : ℚ × ℚ :=
  let c := color.clamp cct 1667 25000
  let x_approx :=
    if 1667 ≤ c ∧ c ≤ 4000 then
      -0.2661239e9 / (c * c * c) - 0.2343580e6 / (c * c) + 0.8776956e3 / c + 0.179910
    else
      -3.0258469e9 / (c * c * c) + 2.1070379e6 / (c * c) + 0.2226347e3 / c + 0.240390
  let y_approx :=
    -1.1063814 * (x_approx * x_approx * x_approx) - 1.34811020 * (x_approx * x_approx) +
      2.18555832 * x_approx - 0.20219683
  (x_approx, y_approx)

/-- The v' coordinate of a chromaticity, as computed inside
`wb::temperature::calculateDuv` (xy → XYZ → u'v', with the guards of
wb_color_space.h). -/
def vPrimeOfXy (x y : ℚ) : ℚ :=
  let XYZ := color.xyToXyz x y
  (color.xyzToUvPrime XYZ.1 XYZ.2.1 XYZ.2.2).2

/-- The v' coordinate of the daylight-locus reference point at a given
CCT, as computed inside `wb::temperature::calculateDuv`. -/
def vPrimeOfCct (cct : ℚ) : ℚ :=
  let ref := xyFromCct_DaylightApprox cct
  vPrimeOfXy ref.1 ref.2

/-- `wb::temperature::calculateDuv` of wb_temperature.h: the signed v'
difference between the point and the daylight-locus point at `cct`. -/
def calculateDuv (x y cct : ℚ) : ℚ :=
  vPrimeOfXy x y - vPrimeOfCct cct

/-- `wb::temperature::uiTintToDuv` of wb_temperature.h (the source's
default for `scale` is 1000). -/
def uiTintToDuv (tint_ui scale : ℚ) : ℚ :=
  let s := if scale ≤ 1e-9 then 1000 else scale;
  -tint_ui / s

/-- `wb::temperature::duvToUiTint` of wb_temperature.h. -/
def duvToUiTint (duv scale : ℚ) : ℚ := -duv * scale

end wb.temperature

namespace ComputeWB

/-- Template `clampValue` of compute_white_balance.cpp. -/
def clampValue (v lo hi : ℚ) : ℚ := max lo (min v hi)

/-- File-static `linearSrgbToXyz` of compute_white_balance.cpp. -/
def linearSrgbToXyz (r g b : ℚ) : ℚ × ℚ × ℚ :=
  (0.4124564 * r + 0.3575761 * g + 0.1804375 * b,
   0.2126729 * r + 0.7151522 * g + 0.0721750 * b,
   0.0193339 * r + 0.1191920 * g + 0.9503041 * b)

/-- File-static `xyzToXy` of compute_white_balance.cpp (defaults to (0,0)
on a degenerate denominator). -/
def xyzToXy (X Y Z : ℚ) : ℚ × ℚ :=
  let denom := X + Y + Z
  if denom ≤ 1e-12 then (0, 0) else (X / denom, Y / denom)

/-- File-static `xyzToUvPrime` of compute_white_balance.cpp. -/
def xyzToUvPrime (X Y Z : ℚ) : ℚ × ℚ :=
  let denom := X + 15 * Y + 3 * Z
  if denom ≤ 1e-12 then (0, 0) else (4 * X / denom, 9 * Y / denom)

/-- File-static `cctFromXy_McCamy` of compute_white_balance.cpp (clamped
to [1000, 40000], no denominator guard). -/
def cctFromXy_McCamy (x y : ℚ) : ℚ :=
  let n := (x - 0.3320) / (0.1858 - y)
  let cct := 449.0 * n * n * n + 3525.0 * n * n + 6823.3 * n + 5520.33
  clampValue cct 1000 40000

/-- File-static `xyFromCct_DaylightApprox` of compute_white_balance.cpp
(same shape as the wb_temperature.h copy). -/
def xyFromCct_DaylightApprox (cct : ℚ) : ℚ × ℚ :=
  let t := clampValue cct 1667 25000
  let xApprox :=
    if 1667 ≤ t ∧ t ≤ 4000 then
      -0.2661239e9 / (t * t * t) - 0.2343580e6 / (t * t) + 0.8776956e3 / t + 0.179910
    else
      -3.0258469e9 / (t * t * t) + 2.1070379e6 / (t * t) + 0.2226347e3 / t + 0.240390
  let yApprox :=
    -1.1063814 * (xApprox * xApprox * xApprox) - 1.34811020 * (xApprox * xApprox) +
      2.18555832 * xApprox - 0.20219683
  (xApprox, yApprox)

/-- The test-point (u, v) and locus-reference (u, v) pairs computed inside
`estimateCctTintFromLinearSrgbAverages` of compute_white_balance.cpp. -/
def estimateUvPair (avgR avgG avgB : ℚ) : (ℚ × ℚ) × (ℚ × ℚ) :=
  let XYZ := linearSrgbToXyz avgR avgG avgB
  let xy := xyzToXy XYZ.1 XYZ.2.1 XYZ.2.2
  let cct := cctFromXy_McCamy xy.1 xy.2
  let uv := xyzToUvPrime XYZ.1 XYZ.2.1 XYZ.2.2
  let locus := xyFromCct_DaylightApprox cct
  let locusXyz :=
    if locus.2 ≤ 1e-12 then ((0 : ℚ), (0 : ℚ), (0 : ℚ))
    else (locus.1 * (1 / locus.2), 1, (1 - locus.1 - locus.2) * (1 / locus.2))
  let uvRef := xyzToUvPrime locusXyz.1 locusXyz.2.1 locusXyz.2.2
  (uv, uvRef)

/-- File-static `estimateCctTintFromLinearSrgbAverages` of
compute_white_balance.cpp: returns (cct, duv) with duv the signed u'v'
distance to the daylight-locus reference (positive when v ≥ vRef). -/
noncomputable def estimateCctTintFromLinearSrgbAverages (avgR avgG avgB : ℚ) : ℚ × ℝ :=
  let XYZ := linearSrgbToXyz avgR avgG avgB
  let xy := xyzToXy XYZ.1 XYZ.2.1 XYZ.2.2
  let cct := cctFromXy_McCamy xy.1 xy.2
  let p := estimateUvPair avgR avgG avgB
  let duv := Real.sqrt (((p.1.1 - p.2.1) * (p.1.1 - p.2.1) + (p.1.2 - p.2.2) * (p.1.2 - p.2.2) : ℚ))
  (cct, if p.1.2 ≥ p.2.2 then duv else -duv)

end ComputeWB

namespace wb

/-- One CV_32FC3 sample in OpenCV channel order (B, G, R). -/
structure Pix where
  b : ℚ
  g : ℚ
  r : ℚ
deriving DecidableEq, Repr

/-- A dense 3-channel image: `rows`/`cols` as reported by `cv::Mat`, and
the samples as a row-major list of rows. -/
structure Img where
  rows : ℕ
  cols : ℕ
  data : List (List Pix)
deriving DecidableEq, Repr

/-- `wb::WhiteBalanceGains` of wb_gains.h. -/
structure WhiteBalanceGains where
  red_gain : ℚ
  green_gain : ℚ
  blue_gain : ℚ
deriving DecidableEq, Repr

/-- `WhiteBalanceGains::normalizeToGreen` of wb_gains.h. -/
def WhiteBalanceGains.normalizeToGreen (gains : WhiteBalanceGains) : WhiteBalanceGains :=
  if gains.green_gain > 1e-9 then
    ⟨gains.red_gain / gains.green_gain, 1, gains.blue_gain / gains.green_gain⟩
  else gains

/-- `WhiteBalanceGains::clampGains` of wb_gains.h. -/
def WhiteBalanceGains.clampGains (gains : WhiteBalanceGains) (min_gain max_gain : ℚ) :
    WhiteBalanceGains :=
  ⟨max min_gain (min max_gain gains.red_gain),
   max min_gain (min max_gain gains.green_gain),
   max min_gain (min max_gain gains.blue_gain)⟩

/-- `wb::applyGains` of wb_gains.h: per-channel multiplication of every
sample by the matching gain component, nothing else. -/
def applyGains (image : Img) (gains : WhiteBalanceGains) : Img :=
  ⟨image.rows, image.cols,
    image.data.map (fun row => row.map (fun p =>
      ⟨p.b * gains.blue_gain, p.g * gains.green_gain, p.r * gains.red_gain⟩))⟩

end wb

namespace wb.algorithms

/-- `wb::algorithms::AlgorithmConfig` of wb_algorithms.h (fields in source
order; the source's defaults are `defaultConfig` below). -/
structure AlgorithmConfig where
  highlight_threshold : ℚ
  shadow_threshold : ℚ
  white_percentile : ℚ
  white_saturation_max : ℚ
  patch_size : ℕ
  reflectance_threshold : ℚ
deriving DecidableEq, Repr

/-- The default-constructed `AlgorithmConfig` (0.98, 0.02, 0.95, 0.05, 32, 0.9). -/
def defaultConfig : AlgorithmConfig := ⟨0.98, 0.02, 0.95, 0.05, 32, 0.9⟩

/-- Per-pixel channel maximum (`cv::max` chain in `computeGrayWorld`). -/
def maxCh (p : Pix) : ℚ := max (max p.b p.g) p.r

/-- Per-pixel channel minimum (`cv::min` chain in `computeGrayWorld`). -/
def minCh (p : Pix) : ℚ := min (min p.b p.g) p.r

/-- The validity mask of `computeGrayWorld`: below the highlight
threshold, above the shadow threshold, and saturation below 0.8 (with the
source's divide-by-zero guard replacing a tiny max by 1). -/
def grayWorldMask (config : AlgorithmConfig) (p : Pix) : Bool :=
  let valid_max := if maxCh p < 1e-6 then 1 else maxCh p
  let saturation := (maxCh p - minCh p) / valid_max
  decide (maxCh p < config.highlight_threshold) &&
    decide (minCh p > config.shadow_threshold) &&
    decide (saturation < 0.8)

/-- All samples of an image in row-major order. -/
def pixels (image : Img) : List Pix := image.data.flatten

/-- `cv::mean(image, mask)`: the per-channel mean over the masked pixels,
(0,0,0) when the mask is empty. -/
def maskedMean (ps : List Pix) : ℚ × ℚ × ℚ :=
  if ps.length = 0 then (0, 0, 0)
  else ((ps.map Pix.b).sum / ps.length,
        (ps.map Pix.g).sum / ps.length,
        (ps.map Pix.r).sum / ps.length)

/-- `wb::algorithms::computeGrayWorld` of wb_algorithms.h. -/
def computeGrayWorld (image : Img) (config : AlgorithmConfig) : WhiteBalanceGains :=
  let valid := (pixels image).filter (grayWorldMask config)
  let m := maskedMean valid
  let b_mean := max 1e-6 m.1
  let g_mean := max 1e-6 m.2.1
  let r_mean := max 1e-6 m.2.2
  let gains : WhiteBalanceGains := ⟨g_mean / r_mean, 1, g_mean / b_mean⟩
  gains.clampGains 0.2 5.0

/-- The sample at (row, col), defaulting to black outside the stored data. -/
def pixelAt (image : Img) (row col : ℕ) : Pix := (image.data.getD row []).getD col ⟨0, 0, 0⟩

/-- The per-channel `cv::mean` of the `ps × ps` patch whose top-left
corner is (x, y) (the ROI of `computePerfectReflector` always has full
`patch_size` extent because the scan stops `patch_size` short of each
border). -/
def patchMean (image : Img) (x y ps : ℕ) : ℚ × ℚ × ℚ :=
  let pts := ((List.range ps).map (fun dy =>
    (List.range ps).map (fun dx => pixelAt image (y + dy) (x + dx)))).flatten
  ((pts.map Pix.b).sum / (ps * ps),
   (pts.map Pix.g).sum / (ps * ps),
   (pts.map Pix.r).sum / (ps * ps))

/-- The luminance of a patch mean: the unweighted average of its three
channel means. -/
def patchLuminance (m : ℚ × ℚ × ℚ) : ℚ := (m.1 + m.2.1 + m.2.2) / 3

/-- The start offsets of the patch scan `for (v = 0; v < n - patch_size;
v += patch_size / 2)` of `computePerfectReflector` (`n` and `patch_size`
compare as C ints, hence the cast to `ℤ`).  Faithful for
`patch_size ≥ 2`; for smaller sizes the C++ loop would not terminate. -/
def patchStarts (n ps : ℕ) : List ℕ :=
  (List.range n).filter (fun v => decide (v % (ps / 2) = 0 ∧ (v : ℤ) < (n : ℤ) - (ps : ℤ)))

/-- Every patch mean visited by the scan of `computePerfectReflector`,
outer loop over y, inner loop over x. -/
def allPatchMeans (image : Img) (config : AlgorithmConfig) : List (ℚ × ℚ × ℚ) :=
  ((patchStarts image.rows config.patch_size).map (fun y =>
    (patchStarts image.cols config.patch_size).map (fun x =>
      patchMean image x y config.patch_size))).flatten

/-- The `bright_patches` vector of `computePerfectReflector`: patch means
whose luminance exceeds the reflectance threshold. -/
def brightPatches (image : Img) (config : AlgorithmConfig) : List (ℚ × ℚ × ℚ) :=
  (allPatchMeans image config).filter
    (fun m => decide (patchLuminance m > config.reflectance_threshold))

/-- `wb::algorithms::computePerfectReflector` of wb_algorithms.h. -/
def computePerfectReflector (image : Img) (config : AlgorithmConfig) : WhiteBalanceGains :=
  let bright := brightPatches image config
  if bright = [] then computeGrayWorld image config
  else
    let avgB := (bright.map (fun m => m.1)).sum / bright.length
    let avgG := (bright.map (fun m => m.2.1)).sum / bright.length
    let avgR := (bright.map (fun m => m.2.2)).sum / bright.length
    let target := (avgB + avgG + avgR) / 3
    let gains : WhiteBalanceGains :=
      ⟨target / max 1e-6 avgR, target / max 1e-6 avgG, target / max 1e-6 avgB⟩
    (gains.normalizeToGreen).clampGains 0.2 5.0

end wb.algorithms

namespace SpecModel

/-- McCamy's n as the spec states it: `n = (x - 0.3320) / (0.1858 - y)`. -/
def mcCamyN (x y : ℚ) : ℚ := (x - 0.3320) / (0.1858 - y)

/-- McCamy's cubic as the spec states it:
`cct = 449 n³ + 3525 n² + 6823.3 n + 5520.33`. -/
def mcCamyCct (x y : ℚ) : ℚ :=
  449 * mcCamyN x y ^ 3 + 3525 * mcCamyN x y ^ 2 + 6823.3 * mcCamyN x y + 5520.33

/-- The xy→kelvin conversion exactly as the spec describes it: McCamy's
approximation clamped into [1000, 40000], with the 6500 K fallback when y
is within a small epsilon (1e-12) of 0.1858.  Written from the spec's
words, to be compared with the source functions. -/
def xyToKelvinClaim (x y : ℚ) : ℚ :=
  if |0.1858 - y| < 1e-12 then 6500 else max 1000 (min 40000 (mcCamyCct x y))

/-- The kelvin→xy conversion exactly as the claim describes it: clamp to
[1000, 25000], then two x regimes split only at T = 4000 and three y
regimes split at T = 2222 and T = 4000.  Written from the spec's words,
to be compared with `ColorTemp.kelvinToXY`. -/
def kelvinToXYClaim (kelvin : ℚ) : ColorTemp.ChromaticityXY :=
  let T := max 1000 (min 25000 kelvin)
  let x :=
    if T < 4000 then
      -0.2661239e9 / (T * T * T) - 0.2343589e6 / (T * T) + 0.8776956e3 / T + 0.179910
    else
      -3.0258469e9 / (T * T * T) + 2.1070379e6 / (T * T) + 0.2226347e3 / T + 0.240390
  let y :=
    if T < 2222 then
      -1.1063814 * x ^ 3 - 1.34811020 * x ^ 2 + 2.18555832 * x - 0.20219683
    else if T < 4000 then
      -0.9549476 * x ^ 3 - 1.37418593 * x ^ 2 + 2.09137015 * x - 0.16748867
    else
      3.0817580 * x ^ 3 - 5.87338670 * x ^ 2 + 3.75112997 * x - 0.37001483
  ⟨x, y⟩

/-- The wb_temperature.h kelvin→xy variant as amended: it differs from
the claim in three ways — it clamps to [1667, 25000] (not [1000, 25000]),
its low-range x cubic has second coefficient 0.2343580e6 (not the stated
0.2343589e6), and it applies the single low-range y cubic at every
temperature instead of three regimes. -/
def xyFromCctDaylightAmended (cct : ℚ) : ℚ × ℚ :=
  let T := max 1667 (min 25000 cct)
  let x :=
    if T ≤ 4000 then
      -0.2661239e9 / (T * T * T) - 0.2343580e6 / (T * T) + 0.8776956e3 / T + 0.179910
    else
      -3.0258469e9 / (T * T * T) + 2.1070379e6 / (T * T) + 0.2226347e3 / T + 0.240390
  let y := -1.1063814 * x ^ 3 - 1.34811020 * x ^ 2 + 2.18555832 * x - 0.20219683
  (x, y)

/-- The kelvin→xy conversion as amended: like the claim for clamped
T ≥ 1667, but clamped T < 1667 yields the source's fixed endpoint
(0.5268, 0.4) instead of extrapolating the low-range cubics. -/
def kelvinToXYAmended (kelvin : ℚ) : ColorTemp.ChromaticityXY :=
  let T := max 1000 (min 25000 kelvin)
  if T < 1667 then ⟨0.5268, 0.4⟩
  else
    let x := if T < 4000 then ColorTemp.planckLowX T else ColorTemp.planckHighX T
    let y :=
      if T < 2222 then ColorTemp.planckY1 x
      else if T < 4000 then ColorTemp.planckY2 x
      else ColorTemp.planckY3 x
    ⟨x, y⟩

end SpecModel

section HelperLemmas

open ColorTemp

lemma duvDistSq_pos_of_v_ne (xy : ChromaticityXY)
    (h : (uvActual xy).2 ≠ (uvLocus xy).2) : 0 < duvDistSq xy := by
  have h1 : 0 ≤ ((uvActual xy).1 - (uvLocus xy).1) * ((uvActual xy).1 - (uvLocus xy).1) :=
    mul_self_nonneg _
  have h2 : 0 < ((uvActual xy).2 - (uvLocus xy).2) * ((uvActual xy).2 - (uvLocus xy).2) :=
    mul_self_pos.mpr (sub_ne_zero.mpr h)
  unfold duvDistSq
  linarith

lemma duvDistSq_nonneg (xy : ChromaticityXY) : 0 ≤ duvDistSq xy := by
  have h1 : 0 ≤ ((uvActual xy).1 - (uvLocus xy).1) * ((uvActual xy).1 - (uvLocus xy).1) :=
    mul_self_nonneg _
  have h2 : 0 ≤ ((uvActual xy).2 - (uvLocus xy).2) * ((uvActual xy).2 - (uvLocus xy).2) :=
    mul_self_nonneg _
  unfold duvDistSq
  linarith

lemma calculateDuv_abs (xy : ChromaticityXY) :
    |calculateDuv xy| = Real.sqrt (duvDistSq xy) := by
  simp only [calculateDuv]
  split_ifs with h
  · rw [abs_neg, abs_of_nonneg (Real.sqrt_nonneg _)]
  · rw [abs_of_nonneg (Real.sqrt_nonneg _)]

lemma calculateDuv_neg_iff (xy : ChromaticityXY) :
    calculateDuv xy < 0 ↔ (uvActual xy).2 < (uvLocus xy).2 := by
  simp only [calculateDuv]
  split_ifs with h
  · have hpos : (0 : ℝ) < Real.sqrt (duvDistSq xy) := by
      refine Real.sqrt_pos.mpr ?_
      exact_mod_cast duvDistSq_pos_of_v_ne xy (ne_of_lt h)
    exact ⟨fun _ => h, fun _ => by linarith⟩
  · simp only [h, iff_false, not_lt]
    exact Real.sqrt_nonneg _

lemma isValidWhitePoint_duv_test (xy : ChromaticityXY) :
    (duvDistSq xy > 0.1 * 0.1) ↔ |calculateDuv xy| > (0.1 : ℝ) := by
  rw [calculateDuv_abs]
  constructor
  · intro h
    refine (Real.lt_sqrt (by norm_num)).mpr ?_
    have : ((0.1 * 0.1 : ℚ) : ℝ) < (duvDistSq xy : ℝ) := by exact_mod_cast h
    calc ((0.1 : ℝ)) ^ 2 = ((0.1 * 0.1 : ℚ) : ℝ) := by norm_num
      _ < _ := this
  · intro h
    have h1 : ((0.1 : ℝ)) ^ 2 < (duvDistSq xy : ℝ) := (Real.lt_sqrt (by norm_num)).mp h
    have h2 : ((0.1 * 0.1 : ℚ) : ℝ) < (duvDistSq xy : ℝ) := by
      calc ((0.1 * 0.1 : ℚ) : ℝ) = ((0.1 : ℝ)) ^ 2 := by norm_num
        _ < _ := h1
    exact_mod_cast h2

lemma wbCalculateDuv_eq (x y cct : ℚ) :
    wb.temperature.calculateDuv x y cct =
      wb.temperature.vPrimeOfXy x y - wb.temperature.vPrimeOfCct cct := rfl

lemma computeWB_duv_neg_iff (avgR avgG avgB : ℚ) :
    (ComputeWB.estimateCctTintFromLinearSrgbAverages avgR avgG avgB).2 < 0 ↔
      (ComputeWB.estimateUvPair avgR avgG avgB).1.2 <
        (ComputeWB.estimateUvPair avgR avgG avgB).2.2 := by
  simp only [ComputeWB.estimateCctTintFromLinearSrgbAverages]
  set p := ComputeWB.estimateUvPair avgR avgG avgB with hp
  split_ifs with h
  · have hs : (0 : ℝ) ≤ Real.sqrt (((p.1.1 - p.2.1) * (p.1.1 - p.2.1) +
        (p.1.2 - p.2.2) * (p.1.2 - p.2.2) : ℚ)) := Real.sqrt_nonneg _
    constructor
    · intro hlt
      exact absurd hlt (not_lt.mpr hs)
    · intro hlt
      exact absurd hlt (not_lt.mpr h)
  · push_neg at h
    have hne : p.1.2 - p.2.2 ≠ 0 := sub_ne_zero.mpr (ne_of_lt h)
    have hpos : (0 : ℚ) < (p.1.1 - p.2.1) * (p.1.1 - p.2.1) +
        (p.1.2 - p.2.2) * (p.1.2 - p.2.2) := by
      have h1 : 0 ≤ (p.1.1 - p.2.1) * (p.1.1 - p.2.1) := mul_self_nonneg _
      have h2 : 0 < (p.1.2 - p.2.2) * (p.1.2 - p.2.2) := mul_self_pos.mpr hne
      linarith
    have hs : (0 : ℝ) < Real.sqrt (((p.1.1 - p.2.1) * (p.1.1 - p.2.1) +
        (p.1.2 - p.2.2) * (p.1.2 - p.2.2) : ℚ)) := by
      refine Real.sqrt_pos.mpr ?_
      exact_mod_cast hpos
    exact ⟨fun _ => h, fun _ => by linarith⟩

end HelperLemmas

/-- C1: `ColorTemp::calculateDuv` finds the McCamy CCT of the point, takes
the locus point there, converts both to CIE 1960 (u, v), and returns their
Euclidean distance signed negative exactly when the test point's v is
below the locus point's v (nonnegative otherwise); the sign rule
`negative ↔ test v < locus v` also governs the other two Duv computations
in the tree (`wb::temperature::calculateDuv`, which returns the signed v'
difference to the locus reference, and the Duv of
`estimateCctTintFromLinearSrgbAverages` in compute_white_balance.cpp). -/
theorem duv_sign_convention :
    ∀ xy : ColorTemp.ChromaticityXY,
      (ColorTemp.calculateDuv xy < 0 ↔
        (ColorTemp.uvActual xy).2 < (ColorTemp.uvLocus xy).2)
      ∧ (0 ≤ ColorTemp.calculateDuv xy ↔
          (ColorTemp.uvLocus xy).2 ≤ (ColorTemp.uvActual xy).2)
      ∧ |ColorTemp.calculateDuv xy| = Real.sqrt (ColorTemp.duvDistSq xy)
      ∧ (∀ x y cct : ℚ,
          (wb.temperature.calculateDuv x y cct < 0 ↔
            wb.temperature.vPrimeOfXy x y < wb.temperature.vPrimeOfCct cct))
      ∧ (∀ avgR avgG avgB : ℚ,
          ((ComputeWB.estimateCctTintFromLinearSrgbAverages avgR avgG avgB).2 < 0 ↔
            (ComputeWB.estimateUvPair avgR avgG avgB).1.2 <
              (ComputeWB.estimateUvPair avgR avgG avgB).2.2)) := by
  intro xy
  refine ⟨calculateDuv_neg_iff xy, ?_, calculateDuv_abs xy, ?_, computeWB_duv_neg_iff⟩
  · rw [← not_lt, ← not_lt, calculateDuv_neg_iff xy]
  · intro x y cct
    rw [wbCalculateDuv_eq]
    exact sub_neg

/-- C6 counterexample: the cited `ColorTemp::tintToDuv` / `duvToTint`
pair does not follow the claimed `-tint_ui/scale` mapping — it uses the
un-negated scale 3000: `tintToDuv 3000 = 1`, not `-3`, and
`duvToTint 0.05 = 150`, not `-50`. -/
theorem uiTint_claim_counterexample :
    ColorTemp.tintToDuv 3000 ≠ -3000 / 1000
    ∧ ColorTemp.duvToTint 0.05 ≠ -(0.05 : ℚ) * 1000 := by
  constructor <;> norm_num [ColorTemp.tintToDuv, ColorTemp.duvToTint]

/-- C6 amended: with the default scale 1000,
`wb::temperature::uiTintToDuv` is exactly `-tint/1000`, its inverse
`duvToUiTint` is exactly `-duv*1000`, and the two compose to the identity
on tints; the `ColorTemp::tintToDuv` / `duvToTint` pair instead uses the
un-negated fixed scale 3000 (`tint/3000` and `duv*3000`), which also
round-trips to the identity. -/
theorem uiTint_duv_roundtrip :
    ∀ tint_ui : ℚ,
      wb.temperature.uiTintToDuv tint_ui 1000 = -tint_ui / 1000
      ∧ wb.temperature.duvToUiTint (wb.temperature.uiTintToDuv tint_ui 1000) 1000 = tint_ui
      ∧ (∀ duv : ℚ, wb.temperature.duvToUiTint duv 1000 = -duv * 1000)
      ∧ ColorTemp.tintToDuv tint_ui = tint_ui / 3000
      ∧ ColorTemp.duvToTint (ColorTemp.tintToDuv tint_ui) = tint_ui
      ∧ (∀ duv : ℚ, ColorTemp.duvToTint duv = duv * 3000) := by
  intro tint_ui
  refine ⟨?_, ?_, fun duv => rfl, rfl, ?_, fun duv => rfl⟩
  · simp only [wb.temperature.uiTintToDuv]
    norm_num
  · simp only [wb.temperature.uiTintToDuv, wb.temperature.duvToUiTint]
    norm_num
  · simp only [ColorTemp.tintToDuv, ColorTemp.duvToTint]
    norm_num

/-- C8: applying gains is elementwise per-channel multiplication with no
clamping, and composing two applications equals a single application of
the componentwise product of the gains. -/
theorem applyGains_composable :
    ∀ (image : wb.Img) (A B : wb.WhiteBalanceGains),
      wb.applyGains (wb.applyGains image A) B =
        wb.applyGains image
          ⟨A.red_gain * B.red_gain, A.green_gain * B.green_gain, A.blue_gain * B.blue_gain⟩
      ∧ (wb.applyGains image A).data = image.data.map (fun row => row.map (fun p =>
          (⟨p.b * A.blue_gain, p.g * A.green_gain, p.r * A.red_gain⟩ : wb.Pix))) := by
  intro image A B
  refine ⟨?_, rfl⟩
  simp [wb.applyGains, List.map_map, Function.comp, mul_assoc]

/-- C2 counterexample: at (x, y) = (0.482, 0.0858) McCamy's cubic gives
25201.905, inside [1000, 40000]; `ColorTemp::xyToKelvin` nevertheless
returns 25000, because it clamps to [1000, 25000], so the claim's
description (clamp to [1000, 40000] with an epsilon fallback) is false of
that function. -/
theorem xyToKelvin_claim_counterexample :
    ColorTemp.xyToKelvin ⟨0.482, 0.0858⟩ ≠ SpecModel.xyToKelvinClaim 0.482 0.0858 := by
  norm_num [ColorTemp.xyToKelvin, SpecModel.xyToKelvinClaim, SpecModel.mcCamyCct,
    SpecModel.mcCamyN, abs_lt]

/-- C2 amended: `wb::temperature::cctFromXy_McCamy` is exactly the
claim's function (McCamy's cubic clamped into [1000, 40000] with the
6500 K fallback when |0.1858 − y| < 1e-12), while `ColorTemp::xyToKelvin`
computes the same cubic but clamps into [1000, 25000] and has no
degenerate-denominator guard (stated away from the degenerate line
y = 0.1858, where the double division of the source has no rational
counterpart). -/
theorem mcCamy_characterization :
    ∀ x y : ℚ,
      wb.temperature.cctFromXy_McCamy x y = SpecModel.xyToKelvinClaim x y
      ∧ (y ≠ 0.1858 →
          ColorTemp.xyToKelvin ⟨x, y⟩ = max 1000 (min 25000 (SpecModel.mcCamyCct x y))) := by
  intro x y
  constructor
  · simp only [wb.temperature.cctFromXy_McCamy, SpecModel.xyToKelvinClaim, wb.color.clamp,
      SpecModel.mcCamyCct, SpecModel.mcCamyN]
    split_ifs with h
    · rfl
    · rw [min_comm]
      ring_nf
  · intro _
    simp only [ColorTemp.xyToKelvin, SpecModel.mcCamyCct, SpecModel.mcCamyN]
    ring_nf

/-- C2 witness: the amended characterization instantiated at the
concrete chromaticity (0.482, 0.0858). -/
theorem mcCamy_characterization_witness :
    (0.0858 : ℚ) ≠ 0.1858 ∧
      ColorTemp.xyToKelvin ⟨0.482, 0.0858⟩ =
        max 1000 (min 25000 (SpecModel.mcCamyCct 0.482 0.0858)) :=
  ⟨by norm_num, (mcCamy_characterization 0.482 0.0858).2 (by norm_num)⟩

/-- C3 counterexample: both cited implementations refute the claim at
concrete kelvins.  At kelvin = 1000 (within the claimed clamp range) the
claim's two-regime formula extrapolates the low-range cubic and yields
x = 0.5571228, but `ColorTemp::kelvinToXY` returns the fixed endpoint
(0.5268, 0.4) because it has a third regime for T < 1667; and
`wb::temperature::xyFromCct_DaylightApprox` diverges from the claim at
1000 (it clamps to 1667, not 1000), at 2000 (its low-range second
coefficient is 0.2343580e6, not the stated 0.2343589e6) and at 5000 (it
has no third y regime — it applies the low-range y cubic). -/
theorem kelvinToXY_claim_counterexample :
    ColorTemp.kelvinToXY 1000 ≠ SpecModel.kelvinToXYClaim 1000
    ∧ (wb.temperature.xyFromCct_DaylightApprox 1000).1 ≠ (SpecModel.kelvinToXYClaim 1000).x
    ∧ (wb.temperature.xyFromCct_DaylightApprox 2000).1 ≠ (SpecModel.kelvinToXYClaim 2000).x
    ∧ (wb.temperature.xyFromCct_DaylightApprox 5000).2 ≠ (SpecModel.kelvinToXYClaim 5000).y := by
  refine ⟨?_, ?_, ?_, ?_⟩ <;>
    norm_num [ColorTemp.kelvinToXY, SpecModel.kelvinToXYClaim,
      wb.temperature.xyFromCct_DaylightApprox, wb.color.clamp, ColorTemp.planckLowX,
      ColorTemp.planckHighX, ColorTemp.planckY1, ColorTemp.planckY2, ColorTemp.planckY3,
      ColorTemp.ChromaticityXY.mk.injEq]

/-- C3 amended: `ColorTemp::kelvinToXY` clamps kelvin into [1000, 25000]
and then evaluates the claim's piecewise cubics (x split at 4000, y split
at 2222 and 4000, with the stated coefficients) for clamped T ≥ 1667,
while clamped T < 1667 yields the fixed endpoint (0.5268, 0.4);
`wb::temperature::xyFromCct_DaylightApprox` instead clamps to
[1667, 25000], uses 0.2343580e6 as the low-range second x coefficient,
and applies the single low-range y cubic at every temperature. -/
theorem kelvinToXY_regimes :
    ∀ kelvin : ℚ,
      ColorTemp.kelvinToXY kelvin = SpecModel.kelvinToXYAmended kelvin
      ∧ wb.temperature.xyFromCct_DaylightApprox kelvin =
          SpecModel.xyFromCctDaylightAmended kelvin := by
  intro kelvin
  constructor
  · simp only [ColorTemp.kelvinToXY, SpecModel.kelvinToXYAmended]
    have h1 : (1000 : ℚ) ≤ max 1000 (min 25000 kelvin) := le_max_left _ _
    have h2 : max 1000 (min 25000 kelvin) ≤ 25000 :=
      max_le (by norm_num) (min_le_left _ _)
    set T := max 1000 (min 25000 kelvin) with hT
    rcases lt_or_le T 1667 with hA | hA
    · have c1 : ¬(1667 ≤ T ∧ T < 4000) := by rintro ⟨h, -⟩; linarith
      have c2 : ¬(4000 ≤ T ∧ T ≤ 25000) := by rintro ⟨h, -⟩; linarith
      have d1 : ¬(1667 ≤ T ∧ T < 2222) := by rintro ⟨h, -⟩; linarith
      have d2 : ¬(2222 ≤ T ∧ T < 4000) := by rintro ⟨h, -⟩; linarith
      have d3 : ¬(4000 ≤ T) := by linarith
      simp [c1, c2, d1, d2, d3, hA]
    · rcases lt_or_le T 2222 with hB | hB
      · have hC : T < 4000 := by linarith
        have c1 : 1667 ≤ T ∧ T < 4000 := ⟨hA, hC⟩
        have d1 : 1667 ≤ T ∧ T < 2222 := ⟨hA, hB⟩
        simp [c1, d1, not_lt.mpr hA, hB, hC]
      · rcases lt_or_le T 4000 with hC | hC
        · have c1 : 1667 ≤ T ∧ T < 4000 := ⟨hA, hC⟩
          have d1 : ¬(1667 ≤ T ∧ T < 2222) := by rintro ⟨-, h⟩; linarith
          have d2 : 2222 ≤ T ∧ T < 4000 := ⟨hB, hC⟩
          simp [c1, d1, d2, not_lt.mpr hA, not_lt.mpr hB, hC]
        · have c1 : ¬(1667 ≤ T ∧ T < 4000) := by rintro ⟨-, h⟩; linarith
          have c2 : 4000 ≤ T ∧ T ≤ 25000 := ⟨hC, h2⟩
          have d1 : ¬(1667 ≤ T ∧ T < 2222) := by rintro ⟨-, h⟩; linarith
          have d2 : ¬(2222 ≤ T ∧ T < 4000) := by rintro ⟨-, h⟩; linarith
          simp [c1, c2, d1, d2, not_lt.mpr hA, not_lt.mpr hB, not_lt.mpr hC, hC]
  · simp only [wb.temperature.xyFromCct_DaylightApprox, SpecModel.xyFromCctDaylightAmended,
      wb.color.clamp, min_comm kelvin 25000]
    have h1667 : (1667 : ℚ) ≤ max 1667 (min 25000 kelvin) := le_max_left _ _
    set T := max 1667 (min 25000 kelvin) with hT
    rcases le_or_lt T 4000 with h | h
    · have c1 : 1667 ≤ T ∧ T ≤ 4000 := ⟨h1667, h⟩
      rw [if_pos c1, if_pos h, Prod.mk.injEq]
      exact ⟨rfl, by ring⟩
    · have c1 : ¬(1667 ≤ T ∧ T ≤ 4000) := by rintro ⟨-, hle⟩; linarith
      rw [if_neg c1, if_neg (not_le.mpr h), Prod.mk.injEq]
      exact ⟨rfl, by ring⟩

/-- C4: with the 3×3 identity as the first three matrix rows and all four
multipliers equal to 1, the scene white-point estimator returns exactly
the equal-energy chromaticity (1/3, 1/3). -/
theorem identity_matrix_whitepoint :
    ColorTemp.estimateWhitePointXYFromCamMulAndMatrix ⟨1, 1, 1, 1⟩
      ⟨(1, 0, 0), (0, 1, 0), (0, 0, 1), (0, 0, 0)⟩ = ⟨1/3, 1/3⟩ := by
  norm_num [ColorTemp.estimateWhitePointXYFromCamMulAndMatrix, ColorTemp.isValidWhitePoint,
    ColorTemp.getStandardIlluminant, ColorTemp.duvDistSq, ColorTemp.uvActual,
    ColorTemp.uvLocus, ColorTemp.xyToUV, ColorTemp.kelvinToXY, ColorTemp.xyToKelvin,
    ColorTemp.EPSILON, ColorTemp.planckLowX, ColorTemp.planckHighX, ColorTemp.planckY1,
    ColorTemp.planckY2, ColorTemp.planckY3, abs_lt]

/-- C5: with an entirely zero calibration matrix the estimator does not
surface any distinguishable state — it returns the plain chromaticity
(1/3, 1/3), the very same value it returns for the ordinary identity
matrix estimate, so callers cannot tell the degenerate case apart. -/
theorem zero_matrix_silent_default :
    ColorTemp.estimateWhitePointXYFromCamMulAndMatrix ⟨1, 1, 1, 1⟩
      ⟨(0, 0, 0), (0, 0, 0), (0, 0, 0), (0, 0, 0)⟩ = ⟨1/3, 1/3⟩
    ∧ ColorTemp.estimateWhitePointXYFromCamMulAndMatrix ⟨1, 1, 1, 1⟩
        ⟨(1, 0, 0), (0, 1, 0), (0, 0, 1), (0, 0, 0)⟩ = ⟨1/3, 1/3⟩ := by
  constructor <;>
    norm_num [ColorTemp.estimateWhitePointXYFromCamMulAndMatrix, ColorTemp.isValidWhitePoint,
      ColorTemp.getStandardIlluminant, ColorTemp.duvDistSq, ColorTemp.uvActual,
      ColorTemp.uvLocus, ColorTemp.xyToUV, ColorTemp.kelvinToXY, ColorTemp.xyToKelvin,
      ColorTemp.EPSILON, ColorTemp.planckLowX, ColorTemp.planckHighX, ColorTemp.planckY1,
      ColorTemp.planckY2, ColorTemp.planckY3, abs_lt]

/-- C7 counterexample: at kelvin = 2000 the locus point's Duv is not
within 1e-6 of zero — `calculateDuv` recovers the CCT through McCamy's
inverse, whose round-trip error displaces the reference locus point. -/
theorem locus_duv_claim_counterexample :
    ¬ |ColorTemp.calculateDuv (ColorTemp.kelvinToXY 2000)| ≤ 1e-6 := by
  rw [not_le, calculateDuv_abs]
  have hq : (1e-12 : ℚ) < ColorTemp.duvDistSq (ColorTemp.kelvinToXY 2000) := by
    norm_num [ColorTemp.duvDistSq, ColorTemp.uvActual, ColorTemp.uvLocus, ColorTemp.xyToUV,
      ColorTemp.kelvinToXY, ColorTemp.xyToKelvin, ColorTemp.EPSILON, ColorTemp.planckLowX,
      ColorTemp.planckHighX, ColorTemp.planckY1, ColorTemp.planckY2, ColorTemp.planckY3,
      abs_lt]
  refine (Real.lt_sqrt (by norm_num)).mpr ?_
  have hcast : ((1e-12 : ℚ) : ℝ) < ((ColorTemp.duvDistSq (ColorTemp.kelvinToXY 2000) : ℚ) : ℝ) := by
    exact_mod_cast hq
  calc ((1e-6 : ℝ)) ^ 2 = ((1e-12 : ℚ) : ℝ) := by norm_num
    _ < _ := hcast

/-- C7 amended: the Duv of a locus point is not below 1e-6 in general
(see the counterexample at 2000 K); near daylight the McCamy round-trip
residual is small — at 6500 K the magnitude is at most 1e-4. -/
theorem locus_duv_small_at_daylight :
    |ColorTemp.calculateDuv (ColorTemp.kelvinToXY 6500)| ≤ 1e-4 := by
  rw [calculateDuv_abs]
  have hq : ColorTemp.duvDistSq (ColorTemp.kelvinToXY 6500) ≤ 1e-8 := by
    norm_num [ColorTemp.duvDistSq, ColorTemp.uvActual, ColorTemp.uvLocus, ColorTemp.xyToUV,
      ColorTemp.kelvinToXY, ColorTemp.xyToKelvin, ColorTemp.EPSILON, ColorTemp.planckLowX,
      ColorTemp.planckHighX, ColorTemp.planckY1, ColorTemp.planckY2, ColorTemp.planckY3,
      abs_lt]
  rw [Real.sqrt_le_iff]
  refine ⟨by norm_num, ?_⟩
  calc ((ColorTemp.duvDistSq (ColorTemp.kelvinToXY 6500) : ℚ) : ℝ)
      ≤ ((1e-8 : ℚ) : ℝ) := by exact_mod_cast hq
    _ = (1e-4 : ℝ) ^ 2 := by norm_num

/-- C9: when no patch mean reaches the reflectance threshold, the
perfect-reflector estimator returns exactly the gray-world result on the
same image and configuration (the `patch_size ≥ 2` hypothesis marks the
domain on which the embedding of the C++ scan loop is faithful). -/
theorem perfectReflector_fallback :
    ∀ (image : wb.Img) (config : wb.algorithms.AlgorithmConfig),
      2 ≤ config.patch_size →
      (∀ m ∈ wb.algorithms.allPatchMeans image config,
        wb.algorithms.patchLuminance m ≤ config.reflectance_threshold) →
      wb.algorithms.computePerfectReflector image config =
        wb.algorithms.computeGrayWorld image config := by
  intro image config _ h
  have hempty : wb.algorithms.brightPatches image config = [] := by
    simp only [wb.algorithms.brightPatches]
    refine List.filter_eq_nil_iff.mpr ?_
    intro m hm
    simpa using not_lt.mpr (h m hm)
  simp only [wb.algorithms.computePerfectReflector, hempty]
  simp

/-- C9 witness: the fallback theorem applied to a concrete 1×1 mid-gray
image with the default configuration (whose scan produces no patches). -/
theorem perfectReflector_fallback_witness :
    wb.algorithms.computePerfectReflector ⟨1, 1, [[⟨0.5, 0.5, 0.5⟩]]⟩
        wb.algorithms.defaultConfig =
      wb.algorithms.computeGrayWorld ⟨1, 1, [[⟨0.5, 0.5, 0.5⟩]]⟩
        wb.algorithms.defaultConfig :=
  perfectReflector_fallback ⟨1, 1, [[⟨0.5, 0.5, 0.5⟩]]⟩ wb.algorithms.defaultConfig
    (by norm_num [wb.algorithms.defaultConfig])
    (by simp [wb.algorithms.allPatchMeans, wb.algorithms.patchStarts,
      wb.algorithms.defaultConfig])

/-- C10: `getStandardIlluminant` is total — the six known names map to
their tabulated chromaticities ("E" to (1/3, 1/3)) and every other string
silently falls back to the D65 chromaticity (0.31271, 0.32902). -/
theorem standardIlluminant_total :
    ColorTemp.getStandardIlluminant "A" = ⟨0.44757, 0.40745⟩
    ∧ ColorTemp.getStandardIlluminant "D50" = ⟨0.34567, 0.35851⟩
    ∧ ColorTemp.getStandardIlluminant "D55" = ⟨0.33242, 0.34743⟩
    ∧ ColorTemp.getStandardIlluminant "D65" = ⟨0.31271, 0.32902⟩
    ∧ ColorTemp.getStandardIlluminant "D75" = ⟨0.29902, 0.31485⟩
    ∧ ColorTemp.getStandardIlluminant "E" = ⟨1/3, 1/3⟩
    ∧ (∀ s : String, s ∉ (["A", "D50", "D55", "D65", "D75", "E"] : List String) →
        ColorTemp.getStandardIlluminant s = ⟨0.31271, 0.32902⟩) := by
  refine ⟨rfl, rfl, rfl, rfl, rfl, rfl, ?_⟩
  intro s hs
  simp only [List.mem_cons, List.mem_singleton, not_or] at hs
  obtain ⟨h1, h2, h3, h4, h5, h6, -⟩ := hs
  simp [ColorTemp.getStandardIlluminant, h1, h2, h3, h4, h5, h6]

/-- C10 witness: an unrecognized name falls back to D65. -/
theorem standardIlluminant_total_witness :
    ColorTemp.getStandardIlluminant "F11" = ⟨0.31271, 0.32902⟩ :=
  standardIlluminant_total.2.2.2.2.2.2 "F11" (by simp)
